import Mathlib

/-!
Shallow embedding of the reservation, state-machine, pricing, encryption and
room-code logic of the express-backend repository, together with theorems
checking the natural-language specification against it.

Sources embedded:
* prisma/schema.prisma (enums and record shapes),
* src/routes/bookingRoutes.ts (POST /api/bookings, PUT /api/bookings/:id/status),
* src/utils/encryption.ts (EncryptionService.encrypt / decrypt),
* the room routes file (generateRoomCode, POST /api/rooms).

Timestamps are epoch milliseconds, modelled as `Int` (the value of
`Date.prototype.getTime`, always an integer).  JavaScript numbers used for
prices are modelled as `Int`: every price and total in the specification and
in the claims is integral, and on integral values JavaScript number
arithmetic coincides with exact integer arithmetic.  Database tables are
lists of records; the Prisma calls `findFirst` / `findUnique` / `create` /
`update` are modelled as list lookups and functional updates on a `Store`
value.
-/

namespace ExpressBackend

/-- Booking lifecycle statuses, from `enum BookingStatus` in prisma/schema.prisma. -/
inductive BookingStatus where
  | PENDING
  | CONFIRMED
  | CHECKED_IN
  | CHECKED_OUT
  | CANCELLED
  | REJECTED
deriving DecidableEq, Repr

/-- Payment statuses, from `enum PaymentStatus` in prisma/schema.prisma. -/
inductive PaymentStatus where
  | PENDING
  | PAID
  | REFUNDED
  | FAILED
deriving DecidableEq, Repr

/-- A Booking row (prisma/schema.prisma, model Booking).  Ids are opaque and
modelled as `Nat`; `checkIn` and `checkOut` are epoch milliseconds.  The
free-form `members` and `documents` fields play no role in any claim and are
omitted. -/
structure Booking where
  id : Nat
  roomId : Nat
  hotelId : Nat
  userId : Nat
  checkIn : Int
  checkOut : Int
  status : BookingStatus
  paymentStatus : PaymentStatus
  totalAmount : Int
deriving DecidableEq, Repr

/-- A Room row (prisma/schema.prisma, model Room); `price` is the nightly
rate (a JavaScript number in the schema, integral in every claim, modelled
as `Int`). -/
structure Room where
  id : Nat
  hotelId : Nat
  roomNumber : String
  roomCode : String
  price : Int
  capacity : Nat
deriving DecidableEq, Repr

/-- A Hotel row (prisma/schema.prisma, model Hotel): an owner and a list of
delegated managers (the `managers` many-to-many relation). -/
structure Hotel where
  id : Nat
  ownerId : Nat
  managers : List Nat
deriving DecidableEq, Repr

/-- The database state relevant to the embedded routes. -/
structure Store where
  bookings : List Booking
  rooms : List Room
  hotels : List Hotel
deriving DecidableEq, Repr

/-- The typed failure outcomes of the embedded handlers, one constructor per
distinct error response in bookingRoutes.ts. -/
inductive ApiError where
  /-- 400 "Room not available for selected dates" (the spec's ConflictError). -/
  | notAvailable
  /-- 404 "Room not found". -/
  | roomNotFound
  /-- 404 "Booking not found". -/
  | bookingNotFound
  /-- 403 "Not authorized" (the spec's AuthorizationError). -/
  | notAuthorized
  /-- 500 responses produced by the catch-all handlers. -/
  | serverError
deriving DecidableEq, Repr

/-- The date clause of the availability `findFirst` in POST /api/bookings
(bookingRoutes.ts lines 96-109): an OR of two AND blocks, each comparing with
`lte` / `gte` (inclusive bounds):
existing.checkIn ≤ ci ∧ existing.checkOut ≥ ci, or
existing.checkIn ≤ co ∧ existing.checkOut ≥ co. -/
def dateClause (b : Booking) (ci co : Int) : Bool :=
  (decide (b.checkIn ≤ ci) && decide (b.checkOut ≥ ci)) ||
  (decide (b.checkIn ≤ co) && decide (b.checkOut ≥ co))

/-- The status filter of the availability `findFirst` (bookingRoutes.ts lines
93-95): `status: { in: [BookingStatus.CONFIRMED, BookingStatus.PENDING] }`. -/
def statusFilter (s : BookingStatus) : Bool :=
  decide (s = BookingStatus.CONFIRMED) || decide (s = BookingStatus.PENDING)

/-- Whole `where` clause of the availability `findFirst`: same room, status in
the filter, and the date clause. -/
def blocksRequest (roomId : Nat) (ci co : Int) (b : Booking) : Bool :=
  decide (b.roomId = roomId) && statusFilter b.status && dateClause b ci co

/-- `prisma.booking.findFirst` with the availability `where` clause. -/
def findConflicting (bookings : List Booking) (roomId : Nat) (ci co : Int) :
    Option Booking :=
  bookings.find? (blocksRequest roomId ci co)

/-- Milliseconds per day, the divisor `1000 * 60 * 60 * 24` from
bookingRoutes.ts line 126. -/
def msPerDay : Int := 1000 * 60 * 60 * 24

/-- `Math.ceil((checkOut.getTime() - checkIn.getTime()) / (1000*60*60*24))`
(bookingRoutes.ts line 126): the exact ceiling of the millisecond difference
over one day, computed as `-(-x / msPerDay)` with Euclidean division; the
theorem for claim C5 proves this equal to the rational ceiling
`Int.ceil ((co - ci : ℚ) / 86400000)`. -/
def bookingDays (ci co : Int) : Int :=
  -(-(co - ci) / msPerDay)

/-- The parsed body of POST /api/bookings (createBookingSchema); the zod
schema checks only datetime format, never the order of the two dates. -/
structure CreateBookingBody where
  hotelId : Nat
  roomId : Nat
  checkIn : Int
  checkOut : Int
deriving DecidableEq, Repr

/-- The POST /api/bookings handler after body parsing (bookingRoutes.ts lines
83-171): availability check, then room lookup, then price computation and
unconditional insert of a PENDING booking.  Returns the store after the call
together with the response; error responses leave the store unchanged. -/
def createBooking (store : Store) (userId newId : Nat) (body : CreateBookingBody) :
    Store × Except ApiError Booking :=
  match findConflicting store.bookings body.roomId body.checkIn body.checkOut with
  | some _ => (store, Except.error ApiError.notAvailable)
  | none =>
    match store.rooms.find? (fun r => decide (r.id = body.roomId)) with
    | none => (store, Except.error ApiError.roomNotFound)
    | some room =>
      let days := bookingDays body.checkIn body.checkOut
      let total : Int := room.price * days
      let b : Booking :=
        { id := newId
          roomId := body.roomId
          hotelId := body.hotelId
          userId := userId
          checkIn := body.checkIn
          checkOut := body.checkOut
          status := BookingStatus.PENDING
          paymentStatus := PaymentStatus.PENDING
          totalAmount := total }
      ({ store with bookings := store.bookings ++ [b] }, Except.ok b)

/-- The PUT /api/bookings/:id/status handler (bookingRoutes.ts lines 233-262):
look the booking up (including its hotel), 404 when absent, 403 unless the
caller is the hotel owner, then write the requested status unconditionally.
A booking whose hotel row is missing would make the include throw, caught by
the catch-all 500. -/
def updateBookingStatus (store : Store) (actorId bookingId : Nat)
    (newStatus : BookingStatus) : Store × Except ApiError Booking :=
  match store.bookings.find? (fun b => decide (b.id = bookingId)) with
  | none => (store, Except.error ApiError.bookingNotFound)
  | some booking =>
    match store.hotels.find? (fun h => decide (h.id = booking.hotelId)) with
    | none => (store, Except.error ApiError.serverError)
    | some hotel =>
      if hotel.ownerId ≠ actorId then
        (store, Except.error ApiError.notAuthorized)
      else
        let updated := { booking with status := newStatus }
        ({ store with
            bookings := store.bookings.map
              (fun b => if b.id = bookingId then { b with status := newStatus } else b) },
          Except.ok updated)

/-- Spec-side definition (section 3 of the specification): two half-open
intervals conflict iff `a.checkIn < b.checkOut && b.checkIn < a.checkOut`.
Kept separate from the source-side `dateClause` so the two can be compared. -/
def specOverlap (aIn aOut bIn bOut : Int) : Bool :=
  decide (aIn < bOut) && decide (bIn < aOut)

/-- Spec-side definition (section 4.2 of the specification): the booking
state machine.  PENDING may go to CONFIRMED, REJECTED or CANCELLED;
CONFIRMED to CHECKED_IN or CANCELLED; CHECKED_IN to CHECKED_OUT; the rest
are terminal. -/
def specTransitionAllowed (s t : BookingStatus) : Bool :=
  match s, t with
  | BookingStatus.PENDING, BookingStatus.CONFIRMED => true
  | BookingStatus.PENDING, BookingStatus.REJECTED => true
  | BookingStatus.PENDING, BookingStatus.CANCELLED => true
  | BookingStatus.CONFIRMED, BookingStatus.CHECKED_IN => true
  | BookingStatus.CONFIRMED, BookingStatus.CANCELLED => true
  | BookingStatus.CHECKED_IN, BookingStatus.CHECKED_OUT => true
  | _, _ => false

/-!
Event-loop model of concurrent POST /api/bookings calls.  The handler is an
async function whose only suspension points are the awaited store round trips
(`findFirst`, `room.findUnique`, `booking.create`); between two awaits it runs
without interruption.  A client is therefore a small program counter over
those three store operations, and an interleaving is a schedule of client
indices, each entry letting one client run to its next await. -/

/-- Program counter of one in-flight POST /api/bookings call: which awaited
store operation runs next. -/
inductive ClientPC where
  | atCheck
  | atRoomLookup
  | atCreate
  | finished
deriving DecidableEq, Repr

deriving instance DecidableEq for Except

/-- Local state of one in-flight POST /api/bookings call. -/
structure ClientCtx where
  userId : Nat
  newId : Nat
  body : CreateBookingBody
  pc : ClientPC
  room : Option Room
  result : Option (Except ApiError Booking)
deriving DecidableEq, Repr

/-- A fresh call that has not reached its first await yet. -/
def ClientCtx.start (userId newId : Nat) (body : CreateBookingBody) : ClientCtx :=
  { userId := userId, newId := newId, body := body,
    pc := ClientPC.atCheck, room := none, result := none }

/-- Run one client up to (and through) its next awaited store operation,
mirroring the corresponding segment of the POST /api/bookings handler. -/
def clientStep (store : Store) (c : ClientCtx) : Store × ClientCtx :=
  match c.pc with
  | ClientPC.atCheck =>
    match findConflicting store.bookings c.body.roomId c.body.checkIn c.body.checkOut with
    | some _ =>
      (store, { c with pc := ClientPC.finished,
                       result := some (Except.error ApiError.notAvailable) })
    | none => (store, { c with pc := ClientPC.atRoomLookup })
  | ClientPC.atRoomLookup =>
    match store.rooms.find? (fun r => decide (r.id = c.body.roomId)) with
    | none =>
      (store, { c with pc := ClientPC.finished,
                       result := some (Except.error ApiError.roomNotFound) })
    | some room => (store, { c with pc := ClientPC.atCreate, room := some room })
  | ClientPC.atCreate =>
    match c.room with
    | none =>
      (store, { c with pc := ClientPC.finished,
                       result := some (Except.error ApiError.serverError) })
    | some room =>
      let days := bookingDays c.body.checkIn c.body.checkOut
      let total : Int := room.price * days
      let b : Booking :=
        { id := c.newId
          roomId := c.body.roomId
          hotelId := c.body.hotelId
          userId := c.userId
          checkIn := c.body.checkIn
          checkOut := c.body.checkOut
          status := BookingStatus.PENDING
          paymentStatus := PaymentStatus.PENDING
          totalAmount := total }
      ({ store with bookings := store.bookings ++ [b] },
        { c with pc := ClientPC.finished, result := some (Except.ok b) })
  | ClientPC.finished => (store, c)

/-- Let client `i` of the pool run to its next await. -/
def stepClientAt (s : Store × List ClientCtx) (i : Nat) : Store × List ClientCtx :=
  match s.2[i]? with
  | none => s
  | some c =>
    let r := clientStep s.1 c
    (r.1, s.2.set i r.2)

/-- Execute a schedule: at each entry the named client runs to its next
await.  Any interleaving of concurrent POST /api/bookings handlers on one
Node event loop is a run of this function for some schedule. -/
def runSchedule (s : Store × List ClientCtx) : List Nat → Store × List ClientCtx
  | [] => s
  | i :: rest => runSchedule (stepClientAt s i) rest

/-!
Document vault (src/utils/encryption.ts).  The Node crypto primitives
(pbkdf2Sync, AES-256-GCM via createCipheriv/createDecipheriv) are external
library code, modelled as an abstract bundle of byte-level functions; the
repository code under verification is the key derivation plumbing and the
`salt || iv || tag || ciphertext` blob layout around them.  Buffers are byte
lists (`List Nat`); the random bytes drawn inside `encrypt` are passed as
explicit arguments. -/

/-- Abstract model of the Node crypto primitives used by EncryptionService:
`kdf password salt` is pbkdf2Sync(password, salt, 100000, 32, sha512);
`enc key iv data` is the GCM ciphertext; `tagOf key iv data` is the
authentication tag produced after final(); `dec key iv tag ct` is GCM
decryption, `none` when tag verification fails. -/
structure CryptoPrimitives where
  kdf : String → List Nat → List Nat
  enc : List Nat → List Nat → List Nat → List Nat
  tagOf : List Nat → List Nat → List Nat → List Nat
  dec : List Nat → List Nat → List Nat → List Nat → Option (List Nat)

/-- Salt length constant of EncryptionService (64 bytes). -/
def saltLength : Nat := 64

/-- IV length constant of EncryptionService (16 bytes). -/
def ivLength : Nat := 16

/-- Auth-tag length constant of EncryptionService (16 bytes = 128 bits). -/
def tagLength : Nat := 16

/-- EncryptionService.encrypt (encryption.ts lines 14-42): derive the key
from the random password and salt, encrypt, and store
`salt ++ iv ++ tag ++ ciphertext`; returns the blob and the password (the
key material handed back to the caller). -/
def EncryptionService.encrypt (P : CryptoPrimitives) (salt iv : List Nat)
    (password : String) (data : List Nat) : List Nat × String :=
  let key := P.kdf password salt
  let encrypted := P.enc key iv data
  let tag := P.tagOf key iv data
  (salt ++ iv ++ tag ++ encrypted, password)

/-- EncryptionService.decrypt (encryption.ts lines 44-59): slice the blob
back into salt (bytes 0-63), iv (64-79), tag (80-95) and ciphertext (96-),
re-derive the key from the password and recovered salt, and run
authenticated decryption. -/
def EncryptionService.decrypt (P : CryptoPrimitives) (encryptedData : List Nat)
    (password : String) : Option (List Nat) :=
  let salt := encryptedData.take saltLength
  let iv := (encryptedData.drop saltLength).take ivLength
  let tag := (encryptedData.drop (saltLength + ivLength)).take tagLength
  let encrypted := encryptedData.drop (saltLength + ivLength + tagLength)
  let key := P.kdf password salt
  P.dec key iv tag encrypted

/-- A concrete instantiation of the crypto primitives used to witness the
round-trip theorem: the cipher is the identity, the tag is a fixed 16-byte
block, and decryption checks the tag by equality.  It satisfies the GCM
functional-correctness assumptions by construction. -/
def toyPrims : CryptoPrimitives where
  kdf := fun _ salt => salt
  enc := fun _ _ data => data
  tagOf := fun _ _ _ => List.replicate 16 0
  dec := fun _ _ tag ct => if tag = List.replicate 16 0 then some ct else none

/-!
Room routes (the unnamed roomRoutes source file): generateRoomCode and the
POST /api/rooms handler.  `crypto.createHash(sha256)` is external library
code, modelled as an abstract hex-digest function `String → String`. -/

/-- generateRoomCode (roomRoutes lines 29-33): render `Date.now()` as a
decimal string, hash it, and keep the first 6 characters of the hex digest.
`sha256hex` abstracts crypto.createHash; `nowMs` is the Date.now() value. -/
def generateRoomCode (sha256hex : String → String) (nowMs : Nat) : String :=
  ((sha256hex (toString nowMs)).take 6)

/-- The parsed body of POST /api/rooms (createRoomSchema, amenities and
images omitted: no claim mentions them). -/
structure CreateRoomBody where
  hotelId : Nat
  roomNumber : String
  price : Int
  capacity : Nat
deriving DecidableEq, Repr

/-- The POST /api/rooms handler after body parsing (roomRoutes lines 68-106):
generate a room code from the current time and insert the room; there is no
lookup of existing codes and no retry, so the insert is unconditional. -/
def createRoom (sha256hex : String → String) (nowMs : Nat) (store : Store)
    (newId : Nat) (body : CreateRoomBody) : Store × Room :=
  let roomCode := generateRoomCode sha256hex nowMs
  let room : Room :=
    { id := newId
      hotelId := body.hotelId
      roomNumber := body.roomNumber
      roomCode := roomCode
      price := body.price
      capacity := body.capacity }
  ({ store with rooms := store.rooms ++ [room] }, room)

/-!
Concrete fixtures used in counterexamples and witnesses. -/

/-- A nightly-rate-100 room of hotel 1, used in the concrete scenarios. -/
def room1 : Room :=
  { id := 1, hotelId := 1, roomNumber := "101", roomCode := "a1b2c3",
    price := 100, capacity := 2 }

/-- Hotel 1: owned by user 10, with user 20 as its only delegated manager. -/
def hotel1 : Hotel :=
  { id := 1, ownerId := 10, managers := [20] }

/-- A booking of room 1 of hotel 1 by user 2 with the given id, interval and
status. -/
def mkBooking (id : Nat) (ci co : Int) (st : BookingStatus) : Booking :=
  { id := id, roomId := 1, hotelId := 1, userId := 2, checkIn := ci,
    checkOut := co, status := st, paymentStatus := PaymentStatus.PENDING,
    totalAmount := 0 }

/-- A store holding room 1, hotel 1 and the given booking rows. -/
def baseStore (bs : List Booking) : Store :=
  { bookings := bs, rooms := [room1], hotels := [hotel1] }

/-- The worked pricing example of the specification: checkIn
2025-02-01T14:00Z and checkOut 2025-02-05T12:00Z, as epoch milliseconds. -/
def exBody : CreateBookingBody :=
  { hotelId := 1, roomId := 1, checkIn := 1738418400000, checkOut := 1738756800000 }

/-- The booking row the handler inserts for `exBody` on an empty table:
4 nights at rate 100, total 400. -/
def exBooking : Booking :=
  { id := 99, roomId := 1, hotelId := 1, userId := 2,
    checkIn := 1738418400000, checkOut := 1738756800000,
    status := BookingStatus.PENDING, paymentStatus := PaymentStatus.PENDING,
    totalAmount := 400 }

/-- The store after inserting `exBooking`. -/
def exStoreAfter : Store :=
  { bookings := [exBooking], rooms := [room1], hotels := [hotel1] }

/-- The body both racing clients submit: room 1 for the first epoch day. -/
def raceBody : CreateBookingBody :=
  { hotelId := 1, roomId := 1, checkIn := 0, checkOut := 86400000 }

/-- Two concurrent POST /api/bookings clients over an empty booking table. -/
def raceInit : Store × List ClientCtx :=
  (baseStore [], [ClientCtx.start 2 100 raceBody, ClientCtx.start 3 101 raceBody])

/-- The booking the first racing client inserts. -/
def raceBookingA : Booking :=
  { id := 100, roomId := 1, hotelId := 1, userId := 2, checkIn := 0,
    checkOut := 86400000, status := BookingStatus.PENDING,
    paymentStatus := PaymentStatus.PENDING, totalAmount := 100 }

/-- The booking the second racing client inserts. -/
def raceBookingB : Booking :=
  { id := 101, roomId := 1, hotelId := 1, userId := 3, checkIn := 0,
    checkOut := 86400000, status := BookingStatus.PENDING,
    paymentStatus := PaymentStatus.PENDING, totalAmount := 100 }

/-- A request whose checkOut precedes its checkIn by one day. -/
def revBody : CreateBookingBody :=
  { hotelId := 1, roomId := 1, checkIn := 86400000, checkOut := 0 }

/-!
Theorems. -/

/-- Ceiling of an integer divided by one day, computed with Euclidean
division: the form used by `bookingDays` agrees with the rational ceiling. -/
theorem neg_ediv_neg_eq_ceil (a : Int) :
    -(-a / 86400000) = ⌈((a : ℚ) / 86400000)⌉ := by
  have h1 : ⌊((↑(-a) : ℚ)) / ((86400000 : ℕ) : ℚ)⌋ = -a / ((86400000 : ℕ) : ℤ) :=
    Rat.floor_intCast_div_natCast (-a) 86400000
  have h2 : ((↑(-a) : ℚ)) / ((86400000 : ℕ) : ℚ) = -((a : ℚ) / 86400000) := by
    push_cast
    ring
  rw [h2, Int.floor_neg] at h1
  have h4 : ((86400000 : ℕ) : ℤ) = 86400000 := by norm_num
  rw [h4] at h1
  omega

/-- `bookingDays` is the rational ceiling of the millisecond difference over
86400000, i.e. the number of nights rounded up. -/
theorem bookingDays_eq_ceil (ci co : Int) :
    bookingDays ci co = ⌈(((co - ci : Int) : ℚ)) / 86400000⌉ := by
  have hms : msPerDay = (86400000 : Int) := by norm_num [msPerDay]
  rw [bookingDays, hms]
  exact neg_ediv_neg_eq_ceil (co - ci)

/-- C1: refuted by the code.  On a store whose only live booking is the
PENDING interval [200, 400) of room 1, the request [100, 500) strictly
contains that interval, so the spec overlap predicate marks it as a
conflict, yet the handler's availability check does not block it and the
booking row is written.  Conversely the back-to-back request [50, 200),
whose checkOut equals the existing checkIn, does not conflict per the
half-open spec predicate, yet the handler rejects it with the conflict
error and writes nothing. -/
theorem createBooking_overlap_check_wrong :
    (specOverlap 100 500 200 400 = true
      ∧ (createBooking (baseStore [mkBooking 1 200 400 BookingStatus.PENDING]) 2 99
            { hotelId := 1, roomId := 1, checkIn := 100, checkOut := 500 }).2
          = Except.ok
              { id := 99, roomId := 1, hotelId := 1, userId := 2, checkIn := 100,
                checkOut := 500, status := BookingStatus.PENDING,
                paymentStatus := PaymentStatus.PENDING, totalAmount := 100 }
      ∧ (createBooking (baseStore [mkBooking 1 200 400 BookingStatus.PENDING]) 2 99
            { hotelId := 1, roomId := 1, checkIn := 100, checkOut := 500 }).1.bookings.length = 2)
    ∧ (specOverlap 50 200 200 400 = false
      ∧ createBooking (baseStore [mkBooking 1 200 400 BookingStatus.PENDING]) 2 99
            { hotelId := 1, roomId := 1, checkIn := 50, checkOut := 200 }
          = (baseStore [mkBooking 1 200 400 BookingStatus.PENDING],
              Except.error ApiError.notAvailable)) := by
  decide

/-- C2 counterexample: an existing CHECKED_IN booking of the requested room
with the very same interval as the request (so it overlaps both per the
spec predicate and per the code's own date test) does not block creation:
the request succeeds, so the conflict check does not consider CHECKED_IN
bookings, contrary to the claim. -/
theorem checkedIn_booking_does_not_block :
    specOverlap 200 400 200 400 = true
    ∧ dateClause (mkBooking 1 200 400 BookingStatus.CHECKED_IN) 200 400 = true
    ∧ (createBooking (baseStore [mkBooking 1 200 400 BookingStatus.CHECKED_IN]) 2 99
          { hotelId := 1, roomId := 1, checkIn := 200, checkOut := 400 }).2
        = Except.ok
            { id := 99, roomId := 1, hotelId := 1, userId := 2, checkIn := 200,
              checkOut := 400, status := BookingStatus.PENDING,
              paymentStatus := PaymentStatus.PENDING, totalAmount := 100 } := by
  decide

/-- C2 amended: booking creation is rejected with the conflict error exactly
when some existing booking of the requested room has status PENDING or
CONFIRMED and satisfies the handler's date test; bookings in the other four
statuses (CHECKED_IN included) never block the request. -/
theorem conflict_iff_pending_or_confirmed (store : Store) (userId newId : Nat)
    (body : CreateBookingBody) :
    (createBooking store userId newId body).2 = Except.error ApiError.notAvailable
      ↔ ∃ b ∈ store.bookings, b.roomId = body.roomId
          ∧ (b.status = BookingStatus.PENDING ∨ b.status = BookingStatus.CONFIRMED)
          ∧ dateClause b body.checkIn body.checkOut = true := by
  constructor
  · intro h
    rw [createBooking] at h
    split at h
    · rename_i b hfc
      have hfc' : store.bookings.find? (blocksRequest body.roomId body.checkIn body.checkOut)
          = some b := hfc
      have hmem := List.mem_of_find?_eq_some hfc'
      have hp := List.find?_some hfc'
      simp only [blocksRequest, statusFilter, Bool.and_eq_true, Bool.or_eq_true,
        decide_eq_true_eq] at hp
      exact ⟨b, hmem, hp.1.1, hp.1.2.symm, hp.2⟩
    · split at h
      · simp at h
      · simp at h
  · rintro ⟨b, hmem, hroom, hstat, hdate⟩
    have hsome : (findConflicting store.bookings body.roomId body.checkIn body.checkOut).isSome := by
      rw [findConflicting, List.find?_isSome]
      refine ⟨b, hmem, ?_⟩
      simp only [blocksRequest, statusFilter, Bool.and_eq_true, Bool.or_eq_true,
        decide_eq_true_eq]
      exact ⟨⟨hroom, hstat.symm⟩, hdate⟩
    rw [createBooking]
    split
    · rfl
    · rename_i hfc
      rw [hfc] at hsome
      simp at hsome

/-- C5: the total amount of every successfully created booking equals
ceil((checkOut − checkIn) / 86400000) × rate, where rate is the price of the
room the handler looked up: the duration is rounded up to whole nights. -/
theorem booking_total_is_ceil_nights_times_rate (store : Store) (userId newId : Nat)
    (body : CreateBookingBody) (room : Room) (st : Store) (b : Booking)
    (hroom : store.rooms.find? (fun r => decide (r.id = body.roomId)) = some room)
    (hcreate : createBooking store userId newId body = (st, Except.ok b)) :
    b.totalAmount = ⌈(((body.checkOut - body.checkIn : Int) : ℚ)) / 86400000⌉ * room.price := by
  rw [createBooking] at hcreate
  split at hcreate
  · simp at hcreate
  · rw [hroom] at hcreate
    simp only [Prod.mk.injEq, Except.ok.injEq] at hcreate
    have hb := hcreate.2
    rw [← hb]
    simp only []
    rw [bookingDays_eq_ceil]
    ring

/-- C5 witness: the specification's worked example.  On an empty booking
table, the request from 2025-02-01T14:00Z to 2025-02-05T12:00Z for the
rate-100 room prices at ceil(338400000 / 86400000) = 4 nights, total 400. -/
theorem booking_total_witness :
    exBooking.totalAmount
        = ⌈(((exBody.checkOut - exBody.checkIn : Int) : ℚ)) / 86400000⌉ * room1.price
    ∧ exBooking.totalAmount = 400 :=
  ⟨booking_total_is_ceil_nights_times_rate (baseStore []) 2 99 exBody room1
      exStoreAfter exBooking (by decide) (by decide),
    by decide⟩

/-- C3: refuted by the code.  Two concurrent POST /api/bookings calls for
room 1 with the identical interval [0, 86400000), interleaved so that both
availability checks run before either insert (schedule client A check,
client B check, then the remaining steps), both succeed: the final table
holds two PENDING bookings of the same room whose intervals overlap per the
spec predicate, instead of one success and one conflict error.  Under the
fully sequential schedule the second call does get the conflict error, so
the divergence is exactly the unsynchronized check-then-write. -/
theorem race_interleaving_double_books :
    ((runSchedule raceInit [0, 1, 0, 1, 0, 1]).2.map ClientCtx.result
        = [some (Except.ok raceBookingA), some (Except.ok raceBookingB)]
      ∧ (runSchedule raceInit [0, 1, 0, 1, 0, 1]).1.bookings
          = [raceBookingA, raceBookingB]
      ∧ raceBookingA.roomId = raceBookingB.roomId
      ∧ raceBookingA.status = BookingStatus.PENDING
      ∧ raceBookingB.status = BookingStatus.PENDING
      ∧ specOverlap raceBookingA.checkIn raceBookingA.checkOut
          raceBookingB.checkIn raceBookingB.checkOut = true)
    ∧ (runSchedule raceInit [0, 0, 0, 1]).2.map ClientCtx.result
        = [some (Except.ok raceBookingA), some (Except.error ApiError.notAvailable)] := by
  decide

/-- C4 counterexample: the status-update endpoint lets the owner move a
PENDING booking directly to CHECKED_OUT, and a CANCELLED booking to
CONFIRMED, both of which the claim's transition table forbids; neither
request fails. -/
theorem forbidden_transitions_succeed :
    (specTransitionAllowed BookingStatus.PENDING BookingStatus.CHECKED_OUT = false
      ∧ (updateBookingStatus (baseStore [mkBooking 1 200 400 BookingStatus.PENDING]) 10 1
            BookingStatus.CHECKED_OUT).2
          = Except.ok (mkBooking 1 200 400 BookingStatus.CHECKED_OUT))
    ∧ (specTransitionAllowed BookingStatus.CANCELLED BookingStatus.CONFIRMED = false
      ∧ (updateBookingStatus (baseStore [mkBooking 1 200 400 BookingStatus.CANCELLED]) 10 1
            BookingStatus.CONFIRMED).2
          = Except.ok (mkBooking 1 200 400 BookingStatus.CONFIRMED)) := by
  decide

/-- C4 amended: the status-update operation performs no transition
validation at all: for every stored booking whose hotel row exists and whose
owner is the caller, every requested status is accepted and written as the
new status, whatever the current status. -/
theorem update_status_unvalidated (store : Store) (actor bid : Nat)
    (ns : BookingStatus) (booking : Booking) (hotel : Hotel)
    (hb : store.bookings.find? (fun b => decide (b.id = bid)) = some booking)
    (hh : store.hotels.find? (fun h => decide (h.id = booking.hotelId)) = some hotel)
    (howner : hotel.ownerId = actor) :
    (updateBookingStatus store actor bid ns).2
      = Except.ok { booking with status := ns } := by
  rw [updateBookingStatus]
  simp only [hb]
  simp only [hh]
  simp [howner]

/-- C4 witness: concrete instance of the unvalidated update, moving a
PENDING booking straight to CHECKED_OUT. -/
theorem update_status_unvalidated_witness :
    (updateBookingStatus (baseStore [mkBooking 1 200 400 BookingStatus.PENDING]) 10 1
        BookingStatus.CHECKED_OUT).2
      = Except.ok { mkBooking 1 200 400 BookingStatus.PENDING with
                      status := BookingStatus.CHECKED_OUT } :=
  update_status_unvalidated (baseStore [mkBooking 1 200 400 BookingStatus.PENDING]) 10 1
    BookingStatus.CHECKED_OUT (mkBooking 1 200 400 BookingStatus.PENDING) hotel1
    (by decide) (by decide) (by decide)

/-- C6 counterexample: a request whose checkOut precedes its checkIn by one
day is not rejected by the pricing step: on an empty booking table it is
inserted with nights = -1 and totalAmount = -100, contrary to the claim
that non-positive nights abort the request with no row written. -/
theorem reversed_interval_booking_inserted :
    bookingDays revBody.checkIn revBody.checkOut = -1
    ∧ (createBooking (baseStore []) 2 99 revBody).2
        = Except.ok
            { id := 99, roomId := 1, hotelId := 1, userId := 2,
              checkIn := 86400000, checkOut := 0, status := BookingStatus.PENDING,
              paymentStatus := PaymentStatus.PENDING, totalAmount := -100 }
    ∧ (createBooking (baseStore []) 2 99 revBody).1.bookings.length = 1 := by
  decide

/-- C6 amended: the pricing step validates nothing: every request with
checkOut ≤ checkIn that passes the availability check and names an existing
room with non-negative rate is inserted anyway, with a non-positive number
of nights and a non-positive total amount. -/
theorem nonpositive_nights_still_inserted (store : Store) (userId newId : Nat)
    (body : CreateBookingBody) (room : Room)
    (hc : findConflicting store.bookings body.roomId body.checkIn body.checkOut = none)
    (hroom : store.rooms.find? (fun r => decide (r.id = body.roomId)) = some room)
    (hrev : body.checkOut ≤ body.checkIn) (hprice : 0 ≤ room.price) :
    ∃ b, (createBooking store userId newId body).2 = Except.ok b
      ∧ (createBooking store userId newId body).1.bookings = store.bookings ++ [b]
      ∧ bookingDays body.checkIn body.checkOut ≤ 0
      ∧ b.totalAmount ≤ 0 := by
  have hdays : bookingDays body.checkIn body.checkOut ≤ 0 := by
    rw [bookingDays]
    have h1 : (0 : Int) ≤ -(body.checkOut - body.checkIn) := by omega
    have h2 : (0 : Int) ≤ -(body.checkOut - body.checkIn) / msPerDay :=
      Int.ediv_nonneg h1 (by norm_num [msPerDay])
    omega
  rw [createBooking, hc, hroom]
  refine ⟨_, rfl, rfl, hdays, ?_⟩
  simp only []
  exact mul_nonpos_iff.mpr (Or.inl ⟨hprice, hdays⟩)

/-- C6 witness: the amended statement at the concrete reversed request. -/
theorem nonpositive_nights_witness :
    ∃ b, (createBooking (baseStore []) 2 99 revBody).2 = Except.ok b
      ∧ (createBooking (baseStore []) 2 99 revBody).1.bookings = [] ++ [b]
      ∧ bookingDays revBody.checkIn revBody.checkOut ≤ 0
      ∧ b.totalAmount ≤ 0 :=
  nonpositive_nights_still_inserted (baseStore []) 2 99 revBody room1
    (by decide) (by decide) (by decide) (by decide)

/-- C7 counterexample: user 20 is a delegated manager of hotel 1 (and not
its owner), yet their status-update request is rejected with the 403
authorization error and the store is unchanged, contrary to the claim that
delegated managers pass the authorization check. -/
theorem manager_gets_authorization_error :
    hotel1.managers.contains 20 = true
    ∧ hotel1.ownerId ≠ 20
    ∧ updateBookingStatus (baseStore [mkBooking 1 200 400 BookingStatus.PENDING]) 20 1
          BookingStatus.CONFIRMED
        = (baseStore [mkBooking 1 200 400 BookingStatus.PENDING],
            Except.error ApiError.notAuthorized) := by
  decide

/-- C7 amended: the status-update endpoint authorizes exactly the hotel
owner: any other actor, delegated managers included, fails with the 403
authorization error and the store is unchanged, while the owner passes the
ownership check and the update succeeds. -/
theorem only_owner_passes_authorization (store : Store) (actor bid : Nat)
    (ns : BookingStatus) (booking : Booking) (hotel : Hotel)
    (hb : store.bookings.find? (fun b => decide (b.id = bid)) = some booking)
    (hh : store.hotels.find? (fun h => decide (h.id = booking.hotelId)) = some hotel) :
    (hotel.ownerId ≠ actor →
      updateBookingStatus store actor bid ns
        = (store, Except.error ApiError.notAuthorized))
    ∧ (hotel.ownerId = actor →
      (updateBookingStatus store actor bid ns).2
        = Except.ok { booking with status := ns }) := by
  constructor
  · intro hne
    rw [updateBookingStatus]
    simp only [hb]
    simp only [hh]
    simp [hne]
  · intro heq
    rw [updateBookingStatus]
    simp only [hb]
    simp only [hh]
    simp [heq]

/-- C7 witness: the amended statement applied to the delegated manager
user 20, who is turned away. -/
theorem only_owner_passes_authorization_witness :
    updateBookingStatus (baseStore [mkBooking 1 200 400 BookingStatus.PENDING]) 20 1
        BookingStatus.CONFIRMED
      = (baseStore [mkBooking 1 200 400 BookingStatus.PENDING],
          Except.error ApiError.notAuthorized) :=
  (only_owner_passes_authorization (baseStore [mkBooking 1 200 400 BookingStatus.PENDING])
      20 1 BookingStatus.CONFIRMED (mkBooking 1 200 400 BookingStatus.PENDING) hotel1
      (by decide) (by decide)).1 (by decide)

/-- C8: Decrypt(Encrypt(P)) = P.  Given the functional correctness of the
abstracted Node crypto primitives (authenticated decryption inverts
encryption under the matching key, iv and tag, and tags are 16 bytes) and
random material of the lengths the service draws (64-byte salt, 16-byte iv),
decrypting the stored blob salt ++ iv ++ tag ++ ciphertext with the key
material returned by encrypt recovers exactly the original payload: the
slicing offsets of decrypt agree with the layout written by encrypt, and the
re-derived key equals the encryption key. -/
theorem decrypt_encrypt_roundtrip (P : CryptoPrimitives) (salt iv : List Nat)
    (password : String) (data : List Nat)
    (hsalt : salt.length = saltLength) (hiv : iv.length = ivLength)
    (htag : ∀ k i d, (P.tagOf k i d).length = tagLength)
    (hdec : ∀ k i d, P.dec k i (P.tagOf k i d) (P.enc k i d) = some d) :
    EncryptionService.decrypt P
      (EncryptionService.encrypt P salt iv password data).1 password = some data := by
  have htl := htag (P.kdf password salt) iv data
  rw [EncryptionService.encrypt, EncryptionService.decrypt]
  simp only []
  have hblob : salt ++ iv ++ P.tagOf (P.kdf password salt) iv data
        ++ P.enc (P.kdf password salt) iv data
      = salt ++ (iv ++ (P.tagOf (P.kdf password salt) iv data
        ++ P.enc (P.kdf password salt) iv data)) := by
    simp [List.append_assoc]
  rw [hblob]
  rw [List.take_left' hsalt, List.drop_left' hsalt]
  have h3 : (salt ++ (iv ++ (P.tagOf (P.kdf password salt) iv data
        ++ P.enc (P.kdf password salt) iv data))).drop (saltLength + ivLength)
      = P.tagOf (P.kdf password salt) iv data ++ P.enc (P.kdf password salt) iv data := by
    rw [← List.drop_drop, List.drop_left' hsalt, List.drop_left' hiv]
  have h4 : (salt ++ (iv ++ (P.tagOf (P.kdf password salt) iv data
        ++ P.enc (P.kdf password salt) iv data))).drop (saltLength + ivLength + tagLength)
      = P.enc (P.kdf password salt) iv data := by
    rw [← List.drop_drop, h3, List.drop_left' htl]
  rw [h3, h4, List.take_left' hiv, List.take_left' htl]
  exact hdec (P.kdf password salt) iv data

/-- C8 witness: the round trip evaluated on the toy primitives with a
64-byte salt, a 16-byte iv and the payload [7, 7, 7]. -/
theorem decrypt_encrypt_roundtrip_witness :
    EncryptionService.decrypt toyPrims
      (EncryptionService.encrypt toyPrims (List.replicate 64 0) (List.replicate 16 1)
        "pw" [7, 7, 7]).1 "pw" = some [7, 7, 7] :=
  decrypt_encrypt_roundtrip toyPrims (List.replicate 64 0) (List.replicate 16 1)
    "pw" [7, 7, 7] (by simp [saltLength]) (by simp [ivLength])
    (fun k i d => by simp [toyPrims, tagLength])
    (fun k i d => by simp [toyPrims])

/-- C10: generateRoomCode is a deterministic function of the Date.now()
millisecond value alone: two room creations sharing a timestamp receive the
same code whatever their bodies, ids or database state; the code is the
first 6 characters of the hex digest of the decimal rendering of the
timestamp; and the new room is appended unconditionally, with no check of
existing codes, so uniqueness rests entirely on the database constraint. -/
theorem roomCode_deterministic_in_timestamp (sha256hex : String → String) (t : Nat)
    (s1 s2 : Store) (id1 id2 : Nat) (b1 b2 : CreateRoomBody) :
    (createRoom sha256hex t s1 id1 b1).2.roomCode
        = (createRoom sha256hex t s2 id2 b2).2.roomCode
    ∧ (createRoom sha256hex t s1 id1 b1).2.roomCode = (sha256hex (toString t)).take 6
    ∧ (createRoom sha256hex t s1 id1 b1).1.rooms
        = s1.rooms ++ [(createRoom sha256hex t s1 id1 b1).2] := by
  refine ⟨?_, ?_, ?_⟩ <;> simp [createRoom, generateRoomCode]

end ExpressBackend
